import Mathlib

/-!
Verification of the Mainflux LoRa adapter service (`lora/service.go`).

The adapter translates inbound LoRa network-server messages into internal
bus envelopes.  We embed the service shallowly: the route-map repositories
become association lists with explicit availability flags, errors become an
inductive type, and the forwarding pipeline becomes a pure function that
also emits a trace of the repository and bus operations it performed.
-/

namespace Lora

/-! ## Error values

Go sentinel errors from `lora/service.go`, plus the error kinds that can
reach the service from its collaborators.  Distinct constructors model the
fact that Go compares sentinel errors by identity: an error produced by
`encoding/json`, by the timestamp conversion, or by the bus client can
never be the same value as one of the service's own sentinel errors. -/

inductive GoErr where
  /-- `ErrMalformedIdentity`: malformed identity received. -/
  | malformedIdentity : GoErr
  /-- `ErrMalformedMessage`: malformed LoRa message. -/
  | malformedMessage : GoErr
  /-- `ErrNotFoundDev`: route map not found for this device EUI. -/
  | notFoundDev : GoErr
  /-- `ErrNotFoundApp`: route map not found for this application ID. -/
  | notFoundApp : GoErr
  /-- Error surfaced by a repository when its backing store is unreachable. -/
  | storeUnavailable : GoErr
  /-- `encoding/json` UnsupportedTypeError for a value it cannot marshal. -/
  | unsupportedType (desc : String) : GoErr
  /-- `ptypes.TimestampProto` rejection of an out-of-range time. -/
  | timestampRange : GoErr
  /-- An error returned by the internal bus client. -/
  | busErr (desc : String) : GoErr
deriving DecidableEq, Repr

/-- Errors a Route Map Repository `Get` can produce. -/
inductive RepoErr where
  | notFound : RepoErr
  | storeUnavailable : RepoErr
deriving DecidableEq, Repr

/-- Errors `encoding/json`'s `Marshal` can produce on the values modelled
here.  It is a separate type because Go's `json` package returns its own
error values, never the lora service's sentinel errors. -/
inductive MarshalErr where
  | unsupportedType (desc : String) : MarshalErr
deriving DecidableEq, Repr

/-- View a `json.Marshal` error as the `error` value the service returns. -/
def marshalErrToGo : MarshalErr → GoErr
  | .unsupportedType d => .unsupportedType d

/-! ## Route Map Repository

`RouteMapRepository` is declared in the lora package but its interface and
Redis implementation are not part of the sources at hand; we model it from
the spec. -/

/-- Modelled from the spec: the Route Map Repository's `Save` operation
(`lora/routemap.go` is not in the sources).  Its first argument is the
internal (Mainflux) identifier, its second the external (LoRa) key; the
stored association is keyed by the external key with the internal
identifier as its value, so a caller passing `(thingID, devEUI)` is
effectively performing `save(key=devEUI, value=thingID)`.  A save for an
existing key overwrites the previous association. -/
def rmSave (m : List (String × String)) (mfxID loraID : String) :
    List (String × String) :=
  (loraID, mfxID) :: m.filter (fun p => p.1 ≠ loraID)

/-- Modelled from the spec: the Route Map Repository's `Get` operation.
Returns the internal value stored for the external key, `notFound` when no
association exists, and `storeUnavailable` when the backing store is
unreachable (the `avail` flag). -/
def rmGet (avail : Bool) (m : List (String × String)) (key : String) :
    Except RepoErr String :=
  if avail then
    match m.lookup key with
    | some v => .ok v
    | none => .error .notFound
  else .error .storeUnavailable

/-- Modelled from the spec: the Route Map Repository's `Remove` operation.
Deletes the association whose internal value equals the given identifier;
removing an absent identifier is a no-op. -/
def rmRemove (m : List (String × String)) (mfxID : String) :
    List (String × String) :=
  m.filter (fun p => p.2 ≠ mfxID)

/-! ## Messages and payloads -/

/-- Go values an `interface\x7b\x7d`-typed field can hold, as far as
`encoding/json` is concerned: JSON-representable documents plus values
(such as channels) that `json.Marshal` rejects with an
UnsupportedTypeError. -/
inductive GoValue where
  | vnull : GoValue
  | vbool (b : Bool) : GoValue
  | vnum (n : Int) : GoValue
  | vstr (s : String) : GoValue
  | varr (xs : List GoValue) : GoValue
  | vobj (fields : List (String × GoValue)) : GoValue
  /-- A Go channel value: `json.Marshal` fails on it. -/
  | vchan : GoValue

/-- Modelled from the spec: the inbound LoRa server message
(`lora/message.go` is not in the sources).  `data` carries the
base64-encoded raw payload; `object` is the optional structured payload
decoded upstream by the LoRa server's codec (`nil` in Go when absent). -/
structure Message where
  applicationID : String
  devEUI : String
  data : String
  object : Option GoValue

/-- Modelled from the spec: the outbound internal bus envelope
(`broker.Message`; the broker package is not in the sources).  Field
`created` holds the translation timestamp in seconds. -/
structure BrokerMessage where
  publisher : String
  protocol : String
  contentType : String
  channel : String
  payload : List Nat
  created : Int
deriving DecidableEq, Repr

/-! ## Go standard-library models: base64 and JSON -/

/-- Index of a character in the standard base64 alphabet
(`A`-`Z`, `a`-`z`, `0`-`9`, `+`, `/`), `none` for anything else. -/
def b64Index (c : Char) : Option Nat :=
  let n := c.toNat
  if 65 ≤ n ∧ n ≤ 90 then some (n - 65)
  else if 97 ≤ n ∧ n ≤ 122 then some (n - 97 + 26)
  else if 48 ≤ n ∧ n ≤ 57 then some (n - 48 + 52)
  else if n = 43 then some 62
  else if n = 47 then some 63
  else none

/-- Decode a stream of base64 characters, four at a time, in the manner of
Go's `base64.StdEncoding`: padding (`=`) may appear only in the final
quantum, which may encode one byte (`xx==`) or two (`xxx=`); any other
shape, any foreign character, or a length not a multiple of four is a
corrupt-input error (`none`). -/
def b64DecodeChunks : List Char → Option (List Nat)
  | [] => some []
  | c0 :: c1 :: c2 :: c3 :: rest =>
    if c3 = '=' then
      if rest ≠ [] then none
      else if c2 = '=' then
        match b64Index c0, b64Index c1 with
        | some i0, some i1 => some [i0 * 4 + i1 / 16]
        | _, _ => none
      else
        match b64Index c0, b64Index c1, b64Index c2 with
        | some i0, some i1, some i2 =>
          some [i0 * 4 + i1 / 16, (i1 % 16) * 16 + i2 / 4]
        | _, _, _ => none
    else
      match b64Index c0, b64Index c1, b64Index c2, b64Index c3 with
      | some i0, some i1, some i2, some i3 =>
        match b64DecodeChunks rest with
        | some bs =>
          some ([i0 * 4 + i1 / 16, (i1 % 16) * 16 + i2 / 4,
                 (i2 % 4) * 64 + i3] ++ bs)
        | none => none
      | _, _, _, _ => none
  | _ => none

/-- Go's `base64.StdEncoding.DecodeString`: line breaks are ignored, the
rest is decoded in quanta of four characters; `none` models the
`CorruptInputError` failure. -/
def decodeString (s : String) : Option (List Nat) :=
  b64DecodeChunks (s.data.filter (fun c => c ≠ '\r' ∧ c ≠ '\n'))

/-- UTF-8 bytes of a string, as Go's `[]byte(s)`. -/
def strBytes (s : String) : List Nat :=
  s.toUTF8.toList.map (fun b => b.toNat)

/-- JSON string quoting in the manner of `encoding/json`: quote, backslash
and control characters are escaped; the HTML-sensitive characters
`<`, `>`, `&` are escaped as unicode sequences. -/
def jsonQuoteChar (c : Char) : String :=
  if c = '"' then "\\\""
  else if c = '\\' then "\\\\"
  else if c = '\n' then "\\n"
  else if c = '\r' then "\\r"
  else if c = '\t' then "\\t"
  else if c = '<' then "\\u003c"
  else if c = '>' then "\\u003e"
  else if c = '&' then "\\u0026"
  else String.singleton c

/-- JSON-quote a whole string. -/
def jsonQuote (s : String) : String :=
  "\"" ++ String.join (s.data.map jsonQuoteChar) ++ "\""

/-- Interpose a separator between serialized items. -/
def joinComma : List String → String
  | [] => ""
  | [x] => x
  | x :: xs => x ++ "," ++ joinComma xs

mutual

/-- Go's `json.Marshal` on an `interface\x7b\x7d` value: serializes
JSON-representable values to their document text and fails with an
UnsupportedTypeError on values (such as channels) that have no JSON
representation. -/
def jsonMarshal : GoValue → Except MarshalErr (List Nat)
  | .vnull => .ok (strBytes "null")
  | .vbool b => .ok (strBytes (if b then "true" else "false"))
  | .vnum n => .ok (strBytes (toString n))
  | .vstr s => .ok (strBytes (jsonQuote s))
  | .varr xs =>
    match jsonMarshalList xs with
    | .ok parts => .ok (strBytes ("[" ++ joinComma parts ++ "]"))
    | .error e => .error e
  | .vobj fs =>
    match jsonMarshalFields fs with
    | .ok parts => .ok (strBytes ("\x7b" ++ joinComma parts ++ "\x7d"))
    | .error e => .error e
  | .vchan => .error (.unsupportedType "chan")

/-- Serialize each array element to its document text. -/
def jsonMarshalList : List GoValue → Except MarshalErr (List String)
  | [] => .ok []
  | x :: xs =>
    match jsonMarshal x with
    | .ok bs =>
      match jsonMarshalList xs with
      | .ok parts => .ok (String.mk (bs.map (fun b => Char.ofNat b)) :: parts)
      | .error e => .error e
    | .error e => .error e

/-- Serialize each object field to `"key":value` text. -/
def jsonMarshalFields : List (String × GoValue) → Except MarshalErr (List String)
  | [] => .ok []
  | (k, v) :: fs =>
    match jsonMarshal v with
    | .ok bs =>
      match jsonMarshalFields fs with
      | .ok parts =>
        .ok ((jsonQuote k ++ ":" ++ String.mk (bs.map (fun b => Char.ofNat b)))
             :: parts)
      | .error e => .error e
    | .error e => .error e

end

/-! ## Timestamp conversion

`ptypes.TimestampProto` validates that the time falls within the protobuf
Timestamp range (years 0001 to 9999) and errors otherwise. -/

def minValidSeconds : Int := -62135596800

def maxValidSeconds : Int := 253402300799

/-- Model of `ptypes.TimestampProto` on a wall-clock time given in seconds:
succeeds within the representable range, errors outside it. -/
def timestampProto (t : Int) : Except GoErr Int :=
  if minValidSeconds ≤ t ∧ t ≤ maxValidSeconds then .ok t
  else .error .timestampRange

/-! ## The adapter service -/

/-- Constant `protocol` from `lora/service.go`. -/
def protocol : String := "lora"

/-- Constant `thingSuffix` from `lora/service.go`. -/
def thingSuffix : String := "thing"

/-- Constant `channelSuffix` from `lora/service.go`. -/
def channelSuffix : String := "channel"

/-- Constant `contentType` from `lora/service.go`. -/
def contentType : String := "application/json"

/-- The two route maps held (through repository handles) by
`adapterService`: the thing table keyed by device EUI, the channel table
keyed by application ID. -/
structure AdapterState where
  thingsRM : List (String × String)
  channelsRM : List (String × String)
deriving DecidableEq, Repr

/-- Environment a single service call runs in: availability of each
repository's backing store, the outcome the bus client would produce
(`none` for success, `some desc` for a bus error), and the wall-clock
time in seconds. -/
structure Env where
  thingsAvail : Bool
  channelsAvail : Bool
  busResult : Option String
  now : Int
deriving DecidableEq, Repr

/-- Observable operations a service call performs on its collaborators. -/
inductive Effect where
  | getThing (key : String) : Effect
  | getChannel (key : String) : Effect
  | saveThing (mfxID loraID : String) : Effect
  | saveChannel (mfxID loraID : String) : Effect
  | removeThing (mfxID : String) : Effect
  | removeChannel (mfxID : String) : Effect
  | busPublish (token : String) (msg : BrokerMessage) : Effect
deriving DecidableEq, Repr

/-- Whether an effect mutates a route map. -/
def Effect.mutates : Effect → Bool
  | .saveThing _ _ => true
  | .saveChannel _ _ => true
  | .removeThing _ => true
  | .removeChannel _ => true
  | _ => false

/-- Outcome of a service call: the returned Go error (if any), the
resulting route-map state, and the trace of collaborator operations. -/
def SvcResult := Except GoErr Unit × AdapterState × List Effect

/-- `adapterService.CreateThing`: delegates `Save(thingID, devEUI)` to the
thing route map.  A repository error propagates unchanged. -/
def CreateThing (avail : Bool) (st : AdapterState)
    (thingID devEUI : String) : SvcResult :=
  if avail then
    (.ok (), ⟨rmSave st.thingsRM thingID devEUI, st.channelsRM⟩,
     [Effect.saveThing thingID devEUI])
  else (.error .storeUnavailable, st, [Effect.saveThing thingID devEUI])

/-- `adapterService.UpdateThing`: delegates `Save(thingID, devEUI)` to the
thing route map, exactly as `CreateThing` does. -/
def UpdateThing (avail : Bool) (st : AdapterState)
    (thingID devEUI : String) : SvcResult :=
  if avail then
    (.ok (), ⟨rmSave st.thingsRM thingID devEUI, st.channelsRM⟩,
     [Effect.saveThing thingID devEUI])
  else (.error .storeUnavailable, st, [Effect.saveThing thingID devEUI])

/-- `adapterService.RemoveThing`: delegates `Remove(thingID)` to the thing
route map. -/
def RemoveThing (avail : Bool) (st : AdapterState) (thingID : String) :
    SvcResult :=
  if avail then
    (.ok (), ⟨rmRemove st.thingsRM thingID, st.channelsRM⟩,
     [Effect.removeThing thingID])
  else (.error .storeUnavailable, st, [Effect.removeThing thingID])

/-- `adapterService.CreateChannel`: delegates `Save(chanID, appID)` to the
channel route map. -/
def CreateChannel (avail : Bool) (st : AdapterState)
    (chanID appID : String) : SvcResult :=
  if avail then
    (.ok (), ⟨st.thingsRM, rmSave st.channelsRM chanID appID⟩,
     [Effect.saveChannel chanID appID])
  else (.error .storeUnavailable, st, [Effect.saveChannel chanID appID])

/-- `adapterService.UpdateChannel`: delegates `Save(chanID, appID)` to the
channel route map, exactly as `CreateChannel` does. -/
def UpdateChannel (avail : Bool) (st : AdapterState)
    (chanID appID : String) : SvcResult :=
  if avail then
    (.ok (), ⟨st.thingsRM, rmSave st.channelsRM chanID appID⟩,
     [Effect.saveChannel chanID appID])
  else (.error .storeUnavailable, st, [Effect.saveChannel chanID appID])

/-- `adapterService.RemoveChannel`: delegates `Remove(chanID)` to the
channel route map. -/
def RemoveChannel (avail : Bool) (st : AdapterState) (chanID : String) :
    SvcResult :=
  if avail then
    (.ok (), ⟨st.thingsRM, rmRemove st.channelsRM chanID⟩,
     [Effect.removeChannel chanID])
  else (.error .storeUnavailable, st, [Effect.removeChannel chanID])

/-- Payload determination inside `Publish`: when `Object` is nil, the
`Data` field is base64-decoded (failure yields `ErrMalformedMessage`);
otherwise the object is marshalled to JSON and a marshal error is returned
as-is. -/
def payloadOf (m : Message) : Except GoErr (List Nat) :=
  match m.object with
  | none =>
    match decodeString m.data with
    | some bs => .ok bs
    | none => .error .malformedMessage
  | some o =>
    match jsonMarshal o with
    | .ok bs => .ok bs
    | .error e => .error (marshalErrToGo e)

/-- `adapterService.Publish`: resolve the thing for the device EUI (any
`Get` error becomes `ErrNotFoundDev`), resolve the channel for the
application ID (any `Get` error becomes `ErrNotFoundApp`), determine the
payload, stamp the translation time, and hand the envelope to the bus
client. -/
def Publish (env : Env) (st : AdapterState) (token : String) (m : Message) :
    SvcResult :=
  match rmGet env.thingsAvail st.thingsRM m.devEUI with
  | .error _ => (.error .notFoundDev, st, [Effect.getThing m.devEUI])
  | .ok thing =>
    match rmGet env.channelsAvail st.channelsRM m.applicationID with
    | .error _ =>
      (.error .notFoundApp, st,
       [Effect.getThing m.devEUI, Effect.getChannel m.applicationID])
    | .ok channel =>
      match payloadOf m with
      | .error e =>
        (.error e, st,
         [Effect.getThing m.devEUI, Effect.getChannel m.applicationID])
      | .ok payload =>
        match timestampProto env.now with
        | .error e =>
          (.error e, st,
           [Effect.getThing m.devEUI, Effect.getChannel m.applicationID])
        | .ok created =>
          let msg : BrokerMessage :=
            ⟨thing, protocol, contentType, channel, payload, created⟩
          match env.busResult with
          | some e =>
            (.error (.busErr e), st,
             [Effect.getThing m.devEUI, Effect.getChannel m.applicationID,
              Effect.busPublish token msg])
          | none =>
            (.ok (), st,
             [Effect.getThing m.devEUI, Effect.getChannel m.applicationID,
              Effect.busPublish token msg])

/-! ## Helper lemmas -/

/-- `TimestampProto` either succeeds with the given time or reports the
range error. -/
theorem timestampProto_cases (t : Int) :
    timestampProto t = .ok t ∨ timestampProto t = .error .timestampRange := by
  unfold timestampProto
  split <;> simp

/-- After a repository save, getting the saved external key yields the
saved internal value. -/
theorem rmGet_rmSave (m : List (String × String)) (mfxID loraID : String) :
    rmGet true (rmSave m mfxID loraID) loraID = .ok mfxID := by
  simp [rmGet, rmSave, List.lookup]

/-! ## Claim theorems -/

/-- C1: `CreateThing(thingID, devEUI)` stores the association keyed by the
device EUI with the thing ID as its value — the inversion of the public
argument order — so a subsequent `get(devEUI)` on the thing table returns
`thingID`; likewise `CreateChannel(chanID, appID)` keys by the application
ID, so `get(appID)` on the channel table returns `chanID`. -/
theorem createThing_saves_by_devEUI (st : AdapterState)
    (thingID devEUI chanID appID : String)
    (h1 : thingID ≠ "") (h2 : devEUI ≠ "") (h3 : chanID ≠ "")
    (h4 : appID ≠ "") :
    rmGet true (CreateThing true st thingID devEUI).2.1.thingsRM devEUI
      = .ok thingID ∧
    rmGet true (CreateChannel true st chanID appID).2.1.channelsRM appID
      = .ok chanID := by
  constructor <;> simp [CreateThing, CreateChannel, rmGet_rmSave]

/-- Witness for C1 at thing `("t1", "AA:BB")` and channel `("c1", "app1")`
on empty tables. -/
theorem createThing_saves_by_devEUI_witness :
    rmGet true (CreateThing true ⟨[], []⟩ "t1" "AA:BB").2.1.thingsRM "AA:BB"
      = .ok "t1" ∧
    rmGet true (CreateChannel true ⟨[], []⟩ "c1" "app1").2.1.channelsRM "app1"
      = .ok "c1" :=
  createThing_saves_by_devEUI ⟨[], []⟩ "t1" "AA:BB" "c1" "app1"
    (by decide) (by decide) (by decide) (by decide)

/-- C8: `CreateThing` and `UpdateThing` are the same operation on every
argument and state, and so are `CreateChannel` and `UpdateChannel`; the
shared save overwrites the value previously stored for an existing key. -/
theorem create_update_identical (avail : Bool) (st : AdapterState)
    (a b c : String) :
    CreateThing avail st a b = UpdateThing avail st a b ∧
    CreateChannel avail st a b = UpdateChannel avail st a b ∧
    rmGet true (UpdateThing true (CreateThing true st a b).2.1 c b).2.1.thingsRM b
      = .ok c ∧
    rmGet true (UpdateChannel true (CreateChannel true st a b).2.1 c b).2.1.channelsRM b
      = .ok c := by
  refine ⟨rfl, rfl, ?_, ?_⟩ <;>
    simp [CreateThing, UpdateThing, CreateChannel, UpdateChannel, rmGet_rmSave]

/-- C3: when the device EUI has no association in the thing route map,
`Publish` fails with `ErrNotFoundDev` after the thing lookup alone: the
channel route map is not consulted, no payload handling happens, and
nothing reaches the bus client, whatever the channel table holds. -/
theorem publish_unmapped_devEUI_fails_fast (env : Env) (st : AdapterState)
    (token : String) (m : Message)
    (h1 : env.thingsAvail = true)
    (h2 : st.thingsRM.lookup m.devEUI = none) :
    (Publish env st token m).1 = .error .notFoundDev ∧
    (Publish env st token m).2.2 = [Effect.getThing m.devEUI] := by
  constructor <;> simp [Publish, rmGet, h1, h2]

/-- Witness for C3: a message with an unmapped device EUI, an unmapped
application ID and undecodable data is rejected with the device error and
a trace holding only the thing lookup. -/
theorem publish_unmapped_devEUI_fails_fast_witness :
    (Publish ⟨true, true, none, 0⟩ ⟨[], []⟩ "tok"
        ⟨"app1", "AA:BB", "!!!", none⟩).1 = .error .notFoundDev ∧
    (Publish ⟨true, true, none, 0⟩ ⟨[], []⟩ "tok"
        ⟨"app1", "AA:BB", "!!!", none⟩).2.2 = [Effect.getThing "AA:BB"] :=
  publish_unmapped_devEUI_fails_fast ⟨true, true, none, 0⟩ ⟨[], []⟩ "tok"
    ⟨"app1", "AA:BB", "!!!", none⟩ rfl rfl

/-- C9: `Publish` is read-only on the route maps: the state it returns is
the state it was given, and its trace holds only lookups and the bus
publish — no save and no remove. -/
theorem publish_readonly (env : Env) (st : AdapterState) (token : String)
    (m : Message) :
    (Publish env st token m).2.1 = st ∧
    (Publish env st token m).2.2.all (fun e => !e.mutates) = true := by
  cases hg : rmGet env.thingsAvail st.thingsRM m.devEUI with
  | error e => simp [Publish, hg, Effect.mutates]
  | ok thing =>
    cases hc : rmGet env.channelsAvail st.channelsRM m.applicationID with
    | error e => simp [Publish, hg, hc, Effect.mutates]
    | ok ch =>
      cases hp : payloadOf m with
      | error e => simp [Publish, hg, hc, hp, Effect.mutates]
      | ok payload =>
        rcases timestampProto_cases env.now with ht | ht <;>
          cases hb : env.busResult <;>
            simp [Publish, hg, hc, hp, ht, hb, Effect.mutates]

/-- C2 counterexample: with the thing store unreachable (so its `Get`
fails with the store-unavailable kind, not a miss — the association is in
fact present), `Publish` returns `ErrNotFoundDev`, which is not the
store-unavailable error: the claim that the error is propagated fails. -/
theorem publish_storeUnavailable_masked_cex :
    (Publish ⟨false, true, none, 0⟩ ⟨[("AA:BB", "t1")], [("app1", "c1")]⟩
        "tok" ⟨"app1", "AA:BB", "", none⟩).1 = .error .notFoundDev ∧
    GoErr.notFoundDev ≠ GoErr.storeUnavailable :=
  ⟨rfl, by decide⟩

/-- C2 amended: when a route-map `Get` inside `Publish` fails — for any
reason, a store-unavailable failure included — the error is replaced by
the not-found translation: `ErrNotFoundDev` for the thing lookup,
`ErrNotFoundApp` for the channel lookup.  The store-unavailable error is
never propagated out of `Publish`. -/
theorem publish_get_error_becomes_notFound (env env2 : Env)
    (st st2 : AdapterState) (token token2 : String) (m m2 : Message)
    (t : String)
    (h1 : env.thingsAvail = false)
    (h2 : env2.thingsAvail = true)
    (h3 : st2.thingsRM.lookup m2.devEUI = some t)
    (h4 : env2.channelsAvail = false) :
    (Publish env st token m).1 = .error .notFoundDev ∧
    (Publish env2 st2 token2 m2).1 = .error .notFoundApp := by
  constructor
  · simp [Publish, rmGet, h1]
  · simp [Publish, rmGet, h2, h3, h4]

/-- Witness for C2's amended claim: an unreachable thing store yields
`ErrNotFoundDev`; an unreachable channel store (after a successful thing
lookup) yields `ErrNotFoundApp`. -/
theorem publish_get_error_becomes_notFound_witness :
    (Publish ⟨false, true, none, 0⟩ ⟨[("AA:BB", "t1")], [("app1", "c1")]⟩
        "tok" ⟨"app1", "AA:BB", "", none⟩).1 = .error .notFoundDev ∧
    (Publish ⟨true, false, none, 0⟩ ⟨[("AA:BB", "t1")], []⟩
        "tok2" ⟨"app1", "AA:BB", "", none⟩).1 = .error .notFoundApp :=
  publish_get_error_becomes_notFound ⟨false, true, none, 0⟩
    ⟨true, false, none, 0⟩ ⟨[("AA:BB", "t1")], [("app1", "c1")]⟩
    ⟨[("AA:BB", "t1")], []⟩ "tok" "tok2" ⟨"app1", "AA:BB", "", none⟩
    ⟨"app1", "AA:BB", "", none⟩ "t1" rfl rfl (by decide) rfl

/-- C5: with `object` absent, data `"!!!not-base64!!!"` and both lookups
succeeding, `Publish` fails with `ErrMalformedMessage` and its trace stops
at the two lookups — nothing is handed to the bus client. -/
theorem publish_bad_base64_malformed (env : Env) (st : AdapterState)
    (token : String) (m : Message) (t c : String)
    (h1 : env.thingsAvail = true)
    (h2 : st.thingsRM.lookup m.devEUI = some t)
    (h3 : env.channelsAvail = true)
    (h4 : st.channelsRM.lookup m.applicationID = some c)
    (h5 : m.object = none)
    (h6 : m.data = "!!!not-base64!!!") :
    (Publish env st token m).1 = .error .malformedMessage ∧
    (Publish env st token m).2.2
      = [Effect.getThing m.devEUI, Effect.getChannel m.applicationID] := by
  have hd : decodeString "!!!not-base64!!!" = none := by decide
  have hp : payloadOf m = .error .malformedMessage := by
    simp [payloadOf, h5, h6, hd]
  constructor <;> simp [Publish, rmGet, h1, h2, h3, h4, hp]

/-- Witness for C5 with both identities mapped. -/
theorem publish_bad_base64_malformed_witness :
    (Publish ⟨true, true, none, 0⟩ ⟨[("AA:BB", "t1")], [("app1", "c1")]⟩
        "tok" ⟨"app1", "AA:BB", "!!!not-base64!!!", none⟩).1
      = .error .malformedMessage ∧
    (Publish ⟨true, true, none, 0⟩ ⟨[("AA:BB", "t1")], [("app1", "c1")]⟩
        "tok" ⟨"app1", "AA:BB", "!!!not-base64!!!", none⟩).2.2
      = [Effect.getThing "AA:BB", Effect.getChannel "app1"] :=
  publish_bad_base64_malformed ⟨true, true, none, 0⟩
    ⟨[("AA:BB", "t1")], [("app1", "c1")]⟩ "tok"
    ⟨"app1", "AA:BB", "!!!not-base64!!!", none⟩ "t1" "c1"
    rfl (by decide) rfl (by decide) rfl rfl

/-- C7: with `object` absent, decodable data and both identities mapped,
`Publish` hands the bus client exactly one envelope, whose publisher is
the resolved thing, channel the resolved channel, protocol the constant
`"lora"`, content type the constant `"application/json"`, and payload the
base64-decoded bytes of `data`. -/
theorem publish_envelope_contract (env : Env) (st : AdapterState)
    (token : String) (m : Message) (t c : String) (bs : List Nat)
    (h1 : env.thingsAvail = true)
    (h2 : st.thingsRM.lookup m.devEUI = some t)
    (h3 : env.channelsAvail = true)
    (h4 : st.channelsRM.lookup m.applicationID = some c)
    (h5 : m.object = none)
    (h6 : decodeString m.data = some bs)
    (h7 : minValidSeconds ≤ env.now)
    (h8 : env.now ≤ maxValidSeconds) :
    (Publish env st token m).2.2
      = [Effect.getThing m.devEUI, Effect.getChannel m.applicationID,
         Effect.busPublish token
           ⟨t, "lora", "application/json", c, bs, env.now⟩] := by
  have hp : payloadOf m = .ok bs := by simp [payloadOf, h5, h6]
  have ht : timestampProto env.now = .ok env.now := by
    simp [timestampProto, h7, h8]
  cases hb : env.busResult <;>
    simp [Publish, rmGet, h1, h2, h3, h4, hp, ht, hb, protocol, contentType]

/-- Witness for C7, the end-to-end scenario: `devEUI="AA:BB"→"t1"`,
`appID="app1"→"c1"`, data the base64 encoding of `"hello"`. -/
theorem publish_envelope_contract_witness :
    (Publish ⟨true, true, none, 0⟩ ⟨[("AA:BB", "t1")], [("app1", "c1")]⟩
        "tok" ⟨"app1", "AA:BB", "aGVsbG8=", none⟩).2.2
      = [Effect.getThing "AA:BB", Effect.getChannel "app1",
         Effect.busPublish "tok"
           ⟨"t1", "lora", "application/json", "c1",
            [104, 101, 108, 108, 111], 0⟩] :=
  publish_envelope_contract ⟨true, true, none, 0⟩
    ⟨[("AA:BB", "t1")], [("app1", "c1")]⟩ "tok"
    ⟨"app1", "AA:BB", "aGVsbG8=", none⟩ "t1" "c1"
    [104, 101, 108, 108, 111]
    rfl (by decide) rfl (by decide) rfl (by decide) (by decide) (by decide)

/-- C10: with `object` absent, empty data and both identities mapped,
`Publish` does not report `ErrMalformedMessage`: the empty string decodes
to zero bytes and the bus client receives an envelope with an empty
payload. -/
theorem publish_empty_data_ok (env : Env) (st : AdapterState)
    (token : String) (m : Message) (t c : String)
    (h1 : env.thingsAvail = true)
    (h2 : st.thingsRM.lookup m.devEUI = some t)
    (h3 : env.channelsAvail = true)
    (h4 : st.channelsRM.lookup m.applicationID = some c)
    (h5 : m.object = none)
    (h6 : m.data = "")
    (h7 : minValidSeconds ≤ env.now)
    (h8 : env.now ≤ maxValidSeconds) :
    (Publish env st token m).1 ≠ .error .malformedMessage ∧
    (Publish env st token m).2.2
      = [Effect.getThing m.devEUI, Effect.getChannel m.applicationID,
         Effect.busPublish token
           ⟨t, "lora", "application/json", c, [], env.now⟩] := by
  have hd : decodeString "" = some [] := rfl
  have hp : payloadOf m = .ok [] := by simp [payloadOf, h5, h6, hd]
  have ht : timestampProto env.now = .ok env.now := by
    simp [timestampProto, h7, h8]
  cases hb : env.busResult <;>
    constructor <;>
      simp [Publish, rmGet, h1, h2, h3, h4, hp, ht, hb, protocol, contentType]

/-- Witness for C10 with both identities mapped and empty data. -/
theorem publish_empty_data_ok_witness :
    (Publish ⟨true, true, none, 0⟩ ⟨[("AA:BB", "t1")], [("app1", "c1")]⟩
        "tok" ⟨"app1", "AA:BB", "", none⟩).1 ≠ .error .malformedMessage ∧
    (Publish ⟨true, true, none, 0⟩ ⟨[("AA:BB", "t1")], [("app1", "c1")]⟩
        "tok" ⟨"app1", "AA:BB", "", none⟩).2.2
      = [Effect.getThing "AA:BB", Effect.getChannel "app1",
         Effect.busPublish "tok"
           ⟨"t1", "lora", "application/json", "c1", [], 0⟩] :=
  publish_empty_data_ok ⟨true, true, none, 0⟩
    ⟨[("AA:BB", "t1")], [("app1", "c1")]⟩ "tok"
    ⟨"app1", "AA:BB", "", none⟩ "t1" "c1"
    rfl (by decide) rfl (by decide) rfl rfl (by decide) (by decide)

/-- When `Publish` reports `ErrMalformedMessage`, the error originated in
payload determination: no other stage of the pipeline produces it. -/
theorem publish_malformed_only_from_payload (env : Env) (st : AdapterState)
    (token : String) (m : Message)
    (h : (Publish env st token m).1 = .error .malformedMessage) :
    payloadOf m = .error .malformedMessage := by
  cases hg : rmGet env.thingsAvail st.thingsRM m.devEUI with
  | error e => simp [Publish, hg] at h
  | ok thing =>
    cases hc : rmGet env.channelsAvail st.channelsRM m.applicationID with
    | error e => simp [Publish, hg, hc] at h
    | ok ch =>
      cases hp : payloadOf m with
      | error e =>
        simp [Publish, hg, hc, hp] at h
        subst h
        rfl
      | ok payload =>
        rcases timestampProto_cases env.now with ht | ht
        · cases hb : env.busResult with
          | none => simp [Publish, hg, hc, hp, ht, hb] at h
          | some e => simp [Publish, hg, hc, hp, ht, hb] at h
        · simp [Publish, hg, hc, hp, ht] at h

/-- C4: when the structured `object` field is present, the outcome of
`Publish` — return value, state and full trace, published payload
included — does not depend on the `data` field, and `ErrMalformedMessage`
is never reported, however invalid `data` may be as base64. -/
theorem publish_object_ignores_data (env : Env) (st : AdapterState)
    (token : String) (m1 m2 : Message) (o : GoValue)
    (h1 : m1.object = some o)
    (h2 : m2.object = some o)
    (h3 : m1.devEUI = m2.devEUI)
    (h4 : m1.applicationID = m2.applicationID) :
    Publish env st token m1 = Publish env st token m2 ∧
    (Publish env st token m1).1 ≠ .error .malformedMessage := by
  have hpay : payloadOf m1 = payloadOf m2 := by simp [payloadOf, h1, h2]
  constructor
  · simp only [Publish, h3, h4, hpay]
  · intro h
    have hp := publish_malformed_only_from_payload env st token m1 h
    cases hm : jsonMarshal o with
    | ok bs => simp [payloadOf, h1, hm] at hp
    | error e =>
      cases e with
      | unsupportedType d => simp [payloadOf, h1, hm, marshalErrToGo] at hp

/-- Witness for C4: two messages sharing the object `"x"` whose `data`
fields differ — one of them invalid base64 — publish identically. -/
theorem publish_object_ignores_data_witness :
    Publish ⟨true, true, none, 0⟩ ⟨[("AA:BB", "t1")], [("app1", "c1")]⟩
        "tok" ⟨"app1", "AA:BB", "%%%", some (GoValue.vstr "x")⟩
      = Publish ⟨true, true, none, 0⟩ ⟨[("AA:BB", "t1")], [("app1", "c1")]⟩
        "tok" ⟨"app1", "AA:BB", "aGVsbG8=", some (GoValue.vstr "x")⟩ ∧
    (Publish ⟨true, true, none, 0⟩ ⟨[("AA:BB", "t1")], [("app1", "c1")]⟩
        "tok" ⟨"app1", "AA:BB", "%%%", some (GoValue.vstr "x")⟩).1
      ≠ .error .malformedMessage :=
  publish_object_ignores_data ⟨true, true, none, 0⟩
    ⟨[("AA:BB", "t1")], [("app1", "c1")]⟩ "tok"
    ⟨"app1", "AA:BB", "%%%", some (GoValue.vstr "x")⟩
    ⟨"app1", "AA:BB", "aGVsbG8=", some (GoValue.vstr "x")⟩
    (GoValue.vstr "x") rfl rfl rfl rfl

/-- C6 counterexample: a present object that `json.Marshal` rejects (a Go
channel value) makes `Publish` return the marshal error itself — the
unsupported-type error — which is not the `ErrMalformedMessage` kind the
claim announces. -/
theorem publish_marshal_error_not_malformed_cex :
    (Publish ⟨true, true, none, 0⟩ ⟨[("AA:BB", "t1")], [("app1", "c1")]⟩
        "tok" ⟨"app1", "AA:BB", "", some GoValue.vchan⟩).1
      = .error (.unsupportedType "chan") ∧
    GoErr.unsupportedType "chan" ≠ GoErr.malformedMessage :=
  ⟨rfl, by decide⟩

/-- C6 amended: when the present object fails to re-serialize, `Publish`
returns the serialization error propagated unchanged — an error distinct
from `ErrMalformedMessage`, so the bad-base64 kind is not reused here. -/
theorem publish_marshal_error_propagated (env : Env) (st : AdapterState)
    (token : String) (m : Message) (t c : String) (o : GoValue)
    (e : MarshalErr)
    (h1 : env.thingsAvail = true)
    (h2 : st.thingsRM.lookup m.devEUI = some t)
    (h3 : env.channelsAvail = true)
    (h4 : st.channelsRM.lookup m.applicationID = some c)
    (h5 : m.object = some o)
    (h6 : jsonMarshal o = .error e) :
    (Publish env st token m).1 = .error (marshalErrToGo e) ∧
    marshalErrToGo e ≠ GoErr.malformedMessage := by
  have hp : payloadOf m = .error (marshalErrToGo e) := by
    simp [payloadOf, h5, h6]
  constructor
  · simp [Publish, rmGet, h1, h2, h3, h4, hp]
  · cases e with
    | unsupportedType d => simp [marshalErrToGo]

/-- Witness for C6's amended claim at the Go channel value. -/
theorem publish_marshal_error_propagated_witness :
    (Publish ⟨true, true, none, 0⟩ ⟨[("AA:BB", "t1")], [("app1", "c1")]⟩
        "tok" ⟨"app1", "AA:BB", "", some GoValue.vchan⟩).1
      = .error (marshalErrToGo (MarshalErr.unsupportedType "chan")) ∧
    marshalErrToGo (MarshalErr.unsupportedType "chan")
      ≠ GoErr.malformedMessage :=
  publish_marshal_error_propagated ⟨true, true, none, 0⟩
    ⟨[("AA:BB", "t1")], [("app1", "c1")]⟩ "tok"
    ⟨"app1", "AA:BB", "", some GoValue.vchan⟩ "t1" "c1" GoValue.vchan
    (MarshalErr.unsupportedType "chan")
    rfl (by decide) rfl (by decide) rfl rfl

end Lora
